import Mathlib

/-!
# Verification of the HMI agent pipeline (`src/agents/hmiAgent.js`)

Shallow embedding of the document-segmentation, keyword-extraction,
screen-specification, workflow-composition and rendering-clamp code of the
HMI agent, together with proofs settling the frozen claims about it.

Conventions of the embedding:
* JavaScript numbers that hold pixel coordinates are modelled as `Int`.
* A possibly-missing JS object field is an `Option`; the JS expression
  `v || d` on numbers is `jsOrI` (note that `0` is falsy in JS), and on
  strings `""` is falsy.
* JS `String.prototype.includes` is `strContains`, `Array.prototype.some`
  is `List.any`, `Array.prototype.filter(Boolean)` is `List.filterMap id`.
* Functions that can throw a JS exception return `Option`/`Except`.
-/

namespace HmiAgent

/-- JS `pos.x || d` for numeric fields: `undefined` and `0` are falsy. -/
def jsOrI (v : Option Int) (d : Int) : Int :=
  match v with
  | some x => if x = 0 then d else x
  | none => d

/-- JS `s || d` for string fields: `undefined` and `""` are falsy. -/
def jsOrS (v : String) (d : String) : String :=
  if v = "" then d else v

/-- `listStartsWith t p` : `p` is an initial segment of `t`. -/
def listStartsWith : List Char → List Char → Bool
  | _, [] => true
  | [], _ :: _ => false
  | c :: t, p :: ps => c == p && listStartsWith t ps

/-- Occurrence of `p` as a contiguous sublist of `t`. -/
def listContainsSub : List Char → List Char → Bool
  | [], p => listStartsWith [] p
  | c :: rest, p => listStartsWith (c :: rest) p || listContainsSub rest p

/-- JS `s.includes(pat)`. -/
def strContains (s pat : String) : Bool :=
  listContainsSub s.data pat.data

/-- JS `s.startsWith(pat)` / regex `^pat`. -/
def strStartsWith (s pat : String) : Bool :=
  listStartsWith s.data pat.data

/-- JS regex `pat$`. -/
def strEndsWith (s pat : String) : Bool :=
  listStartsWith s.data.reverse pat.data.reverse

/-- ASCII lower-casing of one character (all strings this code compares are
ASCII, so this matches JS `toLowerCase`). -/
def jsCharLower (c : Char) : Char :=
  if 'A' ≤ c && c ≤ 'Z' then Char.ofNat (c.toNat + 32) else c

/-- ASCII upper-casing of one character (JS `toUpperCase`). -/
def jsCharUpper (c : Char) : Char :=
  if 'a' ≤ c && c ≤ 'z' then Char.ofNat (c.toNat - 32) else c

/-- JS `s.toLowerCase()`. -/
def jsToLower (s : String) : String :=
  ⟨s.data.map jsCharLower⟩

/-- JS `s.toUpperCase()`. -/
def jsToUpper (s : String) : String :=
  ⟨s.data.map jsCharUpper⟩

/-- JS whitespace relevant inside a single line (`\s` of the regexes). -/
def jsWhitespace (c : Char) : Bool :=
  c == ' ' || c == '\t' || c == '\r' || c == '\n'

/-- JS `\w` word character: `[A-Za-z0-9_]`. -/
def isWordChar (c : Char) : Bool :=
  (c ≥ 'a' && c ≤ 'z') || (c ≥ 'A' && c ≤ 'Z') || (c ≥ '0' && c ≤ '9') || c == '_'

/-- ASCII uppercase letter, for the `[A-Z]` character class. -/
def isUpperAZ (c : Char) : Bool :=
  c ≥ 'A' && c ≤ 'Z'

/-- JS `s.trim()`: strip whitespace from both ends. -/
def jsTrim (s : String) : String :=
  ⟨((s.data.dropWhile jsWhitespace).reverse.dropWhile jsWhitespace).reverse⟩

/-- The split loop of `splitLines`, accumulating the current line reversed. -/
def splitLinesGo : List Char → List Char → List String
  | [], acc => [⟨acc.reverse⟩]
  | '\n' :: rest, acc => ⟨acc.reverse⟩ :: splitLinesGo rest []
  | c :: rest, acc => splitLinesGo rest (c :: acc)

/-- JS `s.split('\n')` (in particular `"".split('\n')` is `[""]`). -/
def splitLines (s : String) : List String :=
  splitLinesGo s.data []

/-- Split at the first occurrence of `p`: `some (before, after)` when `p`
occurs, scanning left to right with the consumed part accumulated reversed. -/
def splitFirstOnGo (p : List Char) : List Char → List Char → Option (List Char × List Char)
  | [], _ => none
  | c :: rest, acc =>
    if listStartsWith (c :: rest) p then
      some (acc.reverse, (c :: rest).drop p.length)
    else splitFirstOnGo p rest (c :: acc)

/-- Split `s` at the first occurrence of `pat`. -/
def strSplitFirst (s pat : String) : Option (String × String) :=
  (splitFirstOnGo pat.data s.data []).map (fun (a, b) => (⟨a⟩, ⟨b⟩))

/-- JS `s.replace(pat, rep)` with a string pattern: replaces only the first
occurrence. -/
def jsReplaceFirst (s pat rep : String) : String :=
  match strSplitFirst s pat with
  | none => s
  | some (a, b) => ⟨a.data ++ rep.data ++ b.data⟩

section Segmenter

/-! ## Section Segmenter: `isHeading` (hmiAgent.js:277) and
`createBasicStructure` (hmiAgent.js:342) -/

/-- Regex `/^\d+\.\s/`: numbered headings like `1. Main Screen`. -/
def numberedHeading (cs : List Char) : Bool :=
  let ds := cs.takeWhile Char.isDigit
  !ds.isEmpty &&
    match cs.drop ds.length with
    | '.' :: c :: _ => jsWhitespace c
    | _ => false

/-- Regex `/^\d+\.\d+\s/`: sub-numbered headings like `1.1 Control Interface`. -/
def subNumberedHeading (cs : List Char) : Bool :=
  let ds := cs.takeWhile Char.isDigit
  !ds.isEmpty &&
    match cs.drop ds.length with
    | '.' :: rest =>
      let ds2 := rest.takeWhile Char.isDigit
      !ds2.isEmpty &&
        match rest.drop ds2.length with
        | c :: _ => jsWhitespace c
        | [] => false
    | _ => false

/-- Regex `/^[A-Z][A-Z\s]+$/`: ALL CAPS headings. -/
def allCapsHeading (cs : List Char) : Bool :=
  match cs with
  | [] => false
  | c :: rest =>
    isUpperAZ c && !rest.isEmpty && rest.all (fun d => isUpperAZ d || jsWhitespace d)

/-- Whole-word triggers of the pattern `/^(Manual|Auto|…)/i`. -/
def headingStartWords : List String :=
  ["manual", "auto", "automatic", "home", "main", "test", "pumpback", "purging",
   "settings", "alarm", "user", "configuration", "display", "control", "interface",
   "panel", "view", "time", "tracking", "diagnostic"]

/-- Trailing nouns of `/Screen$/i` … `/System$/i`. -/
def headingEndWords : List String :=
  ["screen", "interface", "control", "mode", "system"]

/-- Nouns of the pattern `/^\w+\s*(Screen|Display|Interface|Panel|View|Mode|System|Control|Management)/i`. -/
def headingNounWords : List String :=
  ["screen", "display", "interface", "panel", "view", "mode", "system", "control",
   "management"]

/-- Bare substring patterns `/acting/i` … `/interlock/i`. -/
def headingSubstrWords : List String :=
  ["acting", "cylinder", "extend", "retract", "feedback", "fault", "timer", "interlock"]

/-- Does one of `nouns` (already lowercase) start at this position (case-insensitively)? -/
def nounAt (nouns : List String) (u : List Char) : Bool :=
  nouns.any (fun n => listStartsWith (u.map jsCharLower) n.data)

/-- Backtracking search for `/^\w+\s*(noun…)/i` after the first word character:
either stop the `\w+` run here and look for a noun after optional whitespace,
or consume one more word character. -/
def wordNounTail (nouns : List String) : List Char → Bool
  | [] => nounAt nouns []
  | c :: rest =>
    nounAt nouns ((c :: rest).dropWhile jsWhitespace) ||
      (isWordChar c && wordNounTail nouns rest)

/-- Regex `/^\w+\s*(Screen|Display|…)/i`. -/
def wordThenNoun (cs : List Char) : Bool :=
  match cs with
  | [] => false
  | c :: rest => isWordChar c && wordNounTail headingNounWords rest

/-- `isHeading` (hmiAgent.js:277): a trimmed non-empty line matching any of the
fixed heading patterns. -/
def isHeading (line : String) : Bool :=
  let trimmed := jsTrim line
  if trimmed.length = 0 then false
  else
    numberedHeading trimmed.data ||
    subNumberedHeading trimmed.data ||
    allCapsHeading trimmed.data ||
    headingEndWords.any (fun w => strEndsWith (jsToLower trimmed) w) ||
    headingStartWords.any (fun w => strStartsWith (jsToLower trimmed) w) ||
    wordThenNoun trimmed.data ||
    headingSubstrWords.any (fun w => strContains (jsToLower trimmed) w)

/-- A `Section` (`{heading, content[]}`) as built by `createBasicStructure`. -/
structure Sect where
  heading : String
  content : List String
deriving DecidableEq, Repr

/-- The accumulation loop of `createBasicStructure` (hmiAgent.js:349-373):
`cur` is the current open section (`null` before the first line). -/
def processLines : List String → Option Sect → List Sect
  | [], cur => cur.toList
  | l :: ls, cur =>
    if isHeading l then
      cur.toList ++ processLines ls (some { heading := jsTrim l, content := [] })
    else
      match cur with
      | some s => processLines ls (some { s with content := s.content ++ [jsTrim l] })
      | none =>
        processLines ls (some { heading := "Document Content", content := [jsTrim l] })

/-- The non-empty lines of the input (`content.split('\n').filter(line => line.trim().length > 0)`). -/
def nonEmptyLines (content : String) : List String :=
  (splitLines content).filter (fun l => (jsTrim l).length > 0)

/-- `createBasicStructure` (hmiAgent.js:342). -/
def createBasicStructure (content : String) : List Sect :=
  processLines (nonEmptyLines content) none

end Segmenter

section Elements

/-! ## Screen specification elements and the validation/repair pipeline
(`validateAndEnhanceSpec`, hmiAgent.js:3827) -/

/-- An element `position` object as it may arrive from the model:
any of the four numeric fields may be missing. -/
structure RawPos where
  x : Option Int := none
  y : Option Int := none
  width : Option Int := none
  height : Option Int := none
deriving DecidableEq, Repr

/-- A fully-populated position record, as written by the repair passes. -/
def mkPos (x y w h : Int) : RawPos :=
  { x := some x, y := some y, width := some w, height := some h }

/-- A screen-specification element.  `style` abstracts the JS style object as
an opaque string; extra per-type payload fields (`headers`, `rows`) ride along
unchanged through every pass modelled here and are not represented. -/
structure ElemIn where
  type : String
  label : String := ""
  style : String := ""
  purpose : String := ""
  userAction : String := ""
  position : Option RawPos := none
deriving DecidableEq, Repr

/-- The loop body state of `validateElementPositions` (hmiAgent.js:4003):
`idx` is the `forEach` index, `currentY` starts at 120 and advances past
each validated element. -/
def validatePositionsGo : List ElemIn → Nat → Int → List ElemIn
  | [], _, _ => []
  | e :: rest, idx, currentY =>
    let pos := e.position.getD {}
    let x := max 20 (jsOrI pos.x (50 + ((idx % 3 : Nat) : Int) * 200))
    let y := max 120 (jsOrI pos.y currentY)
    let w := min 400 (max 80 (jsOrI pos.width 150))
    let h := max 30 (jsOrI pos.height 40)
    { e with position := some (mkPos x y w h) } ::
      validatePositionsGo rest (idx + 1) (y + h + 10)

/-- `validateElementPositions` (hmiAgent.js:4003). -/
def validateElementPositions (elements : List ElemIn) : List ElemIn :=
  validatePositionsGo elements 0 120

/-- The synthesized screen-title element of `ensureEssentialElements`
(hmiAgent.js:4035). -/
def titleElement (screenName : String) : ElemIn :=
  { type := "text", label := screenName,
    style := "fontSize 24px color #ECF0F1 fontWeight bold",
    purpose := "Screen title and identification",
    userAction := "Visual reference for current screen",
    position := some (mkPos 20 25 400 30) }

/-- The synthesized system-status element of `ensureEssentialElements`
(hmiAgent.js:4048). -/
def statusElement : ElemIn :=
  { type := "status_indicator", label := "SYSTEM READY",
    style := "color #ECF0F1 backgroundColor #27AE60",
    purpose := "Overall system status indication",
    userAction := "Monitor system health at a glance",
    position := some (mkPos 600 25 140 30) }

/-- The `el.type === 'header_title' || el.type === 'text' && el.position?.y < 100`
test (JS `&&` binds tighter than `||`; `undefined < 100` is false). -/
def isTitleLike (el : ElemIn) : Bool :=
  el.type == "header_title" ||
    (el.type == "text" &&
      match el.position with
      | some p => match p.y with
        | some y => decide (y < 100)
        | none => false
      | none => false)

/-- `ensureEssentialElements` (hmiAgent.js:4029).  The `documentContext`
argument of the source is unused in its body and therefore omitted. -/
def ensureEssentialElements (elements : List ElemIn) (screenName : String) :
    List ElemIn :=
  let hasTitle := elements.any isTitleLike
  let withTitle := if hasTitle then elements else titleElement screenName :: elements
  let hasStatus := elements.any (fun el => el.type == "status_indicator")
  if hasStatus then withTitle else withTitle ++ [statusElement]

/-- The widget-type rotation of `generateAdditionalElements` (hmiAgent.js:3870). -/
def additionalElementTypes : List String :=
  ["control_button", "status_indicator", "data_display", "value_input", "gauge",
   "progress_bar", "data_table", "alarm_indicator"]

/-- `generateElementLabel` (hmiAgent.js:3898).  `availableTerms` is the
concatenation `components ++ operations ++ controls` of the session's keyword
profile, which the source reads through `this.getDocumentContext()`; the
`systemType` parameter of the source is unused in its body and omitted. -/
def generateElementLabel (type : String) (availableTerms : List String)
    (index : Nat) : String :=
  if type == "control_button" then
    match availableTerms[index]? with
    | some t => jsToUpper t
    | none => ["START", "STOP", "RESET", "CONFIRM"].getD (index % 4) ""
  else if type == "status_indicator" then
    match availableTerms[index]? with
    | some t => jsToUpper t ++ " STATUS"
    | none => ["SYSTEM STATUS", "READY", "ACTIVE", "NORMAL"].getD (index % 4) ""
  else if type == "data_display" then
    match availableTerms[index]? with
    | some t =>
      if strContains (jsToLower t) "temperature" then "TEMPERATURE"
      else if strContains (jsToLower t) "pressure" then "PRESSURE"
      else if strContains (jsToLower t) "flow" then "FLOW RATE"
      else if strContains (jsToLower t) "speed" then "SPEED"
      else jsToUpper t
    | none => ["TEMPERATURE", "PRESSURE", "FLOW RATE", "LEVEL"].getD (index % 4) ""
  else if type == "value_input" then
    ["SET POINT", "TARGET VALUE", "THRESHOLD", "LIMIT"].getD (index % 4) ""
  else if type == "gauge" then
    match availableTerms[index]? with
    | some t => jsToUpper t ++ " GAUGE"
    | none =>
      ["PRESSURE GAUGE", "TEMPERATURE GAUGE", "FLOW GAUGE", "LEVEL GAUGE"].getD
        (index % 4) ""
  else if type == "progress_bar" then
    match availableTerms[index]? with
    | some t => jsToUpper t ++ " PROGRESS"
    | none =>
      ["OPERATION PROGRESS", "TEST PROGRESS", "STARTUP PROGRESS",
       "PROCESS PROGRESS"].getD (index % 4) ""
  else if type == "alarm_indicator" then
    match availableTerms[index]? with
    | some t => jsToUpper t ++ " ALARM"
    | none =>
      ["SYSTEM ALARM", "PRESSURE ALARM", "TEMPERATURE ALARM",
       "FLOW ALARM"].getD (index % 4) ""
  else if type == "data_table" then "SYSTEM DATA"
  else "ELEMENT " ++ toString (index + 1)

/-- One synthesized element of `generateAdditionalElements` (hmiAgent.js:3869-3891). -/
def additionalElement (availableTerms : List String) (i : Nat) : ElemIn :=
  let type := additionalElementTypes.getD (i % 8) ""
  { type := type
    label := generateElementLabel type availableTerms i
    position := some (mkPos
      (50 + ((i % 3 : Nat) : Int) * 250)
      (200 + ((i / 3 : Nat) : Int) * 100)
      (if type == "data_table" then 300 else if type == "gauge" then 80
       else if type == "progress_bar" then 200 else 120)
      (if type == "data_table" then 80 else if type == "gauge" then 80
       else if type == "progress_bar" then 25 else 40))
    style := if type == "control_button" then "backgroundColor #3498DB"
      else if type == "alarm_indicator" then "backgroundColor #E74C3C"
      else "backgroundColor #27AE60"
    purpose := "Additional " ++ jsReplaceFirst type "_" " " ++ " for system operation"
    userAction := "Operator interacts with this " ++ jsReplaceFirst type "_" " " }

/-- `generateAdditionalElements` (hmiAgent.js:3863): `count` synthesized
elements on a 3-column grid. -/
def generateAdditionalElements (availableTerms : List String) (count : Nat) :
    List ElemIn :=
  (List.range count).map (additionalElement availableTerms)

/-- The element pipeline of `validateAndEnhanceSpec` (hmiAgent.js:3844-3856):
pad below 6 elements up to 8, clamp positions, add essential elements.  The
metadata fields of the enhanced spec (title, purpose, navigation, layout,
colour scheme, description, recommendations) are filled independently of the
element list and are not modelled here. -/
def validateAndEnhanceSpecElements (specElements : List ElemIn)
    (screenName : String) (availableTerms : List String) : List ElemIn :=
  let padded :=
    if specElements.length < 6 then
      specElements ++ generateAdditionalElements availableTerms (8 - specElements.length)
    else specElements
  ensureEssentialElements (validateElementPositions padded) screenName

end Elements

section Fallback

/-! ## Rule-based fallback specification
(`generateFallbackSpec`, hmiAgent.js:2924, and the document-driven element
generators it dispatches to via `generateAdaptiveElements`, hmiAgent.js:2966) -/

/-- The screen-relevant content extracted from the document for one screen
(`extractScreenRelevantContent`); the generators below only read these three
term lists. -/
structure ScreenContent where
  keyOperations : List String := []
  relatedEquipment : List String := []
  parameters : List String := []
deriving DecidableEq, Repr

/-- The `forEach` loops of the home/control/generic generators with mutable
`buttonX`/`buttonY`: at every third index (after the first) the column resets
to `startX` and the row advances by `stepY`; after each element the column
advances by `stepX`. -/
def gridLoop (mk : String → Int → Int → ElemIn) (startX stepX stepY : Int) :
    List String → Nat → Int → Int → List ElemIn
  | [], _, _, _ => []
  | item :: rest, idx, bx, by_ =>
    let bx' := if idx > 0 && idx % 3 == 0 then startX else bx
    let by' := if idx > 0 && idx % 3 == 0 then by_ + stepY else by_
    mk item bx' by' :: gridLoop mk startX stepX stepY rest (idx + 1) (bx' + stepX) by'

/-- Pair each list element with its index (the `forEach` index). -/
def withIdx (l : List String) : List (Nat × String) :=
  (List.range l.length).zip l

/-- `generateDocumentDrivenHomeElements` (hmiAgent.js:3347). -/
def generateDocumentDrivenHomeElements (systemType : String)
    (screenNames : List String) : List ElemIn :=
  let otherScreens := screenNames.filter (fun name =>
    !strContains (jsToLower name) "home" && !strContains (jsToLower name) "main")
  [{ type := "text",
     label := jsToUpper (jsReplaceFirst systemType "_" " ") ++ " CONTROL SYSTEM",
     position := some (mkPos 50 120 500 30),
     style := "fontSize 20px color #F39C12 fontWeight bold" }] ++
  gridLoop (fun name bx by_ =>
      { type := "control_button", label := jsToUpper name,
        position := some (mkPos bx by_ 200 60),
        style := "backgroundColor #3498DB color #FFFFFF fontSize 12px" })
    50 220 80 (otherScreens.take 6) 0 50 180 ++
  [{ type := "data_table", label := "System Overview",
     position := some (mkPos 50 350 700 150),
     style := "fontSize 12px color #2C3E50" }]

/-- `generateDocumentDrivenControlElements` (hmiAgent.js:3395). -/
def generateDocumentDrivenControlElements (sc : ScreenContent) : List ElemIn :=
  [{ type := "text", label := "Manual Control Interface",
     position := some (mkPos 50 120 400 30),
     style := "fontSize 20px color #F39C12 fontWeight bold" }] ++
  gridLoop (fun op bx by_ =>
      { type := "control_button", label := jsToUpper op,
        position := some (mkPos bx by_ 140 50),
        style := "backgroundColor #27AE60 color #FFFFFF fontSize 14px" })
    50 160 70 sc.keyOperations 0 50 180 ++
  (withIdx (sc.relatedEquipment.take 3)).map (fun (i, equipment) =>
    { type := "data_display", label := jsToUpper equipment,
      position := some (mkPos (50 + (i : Int) * 200) 280 180 40),
      style := "fontSize 14px color #2ECC71" }) ++
  [{ type := "gauge", label := "System Pressure",
     position := some (mkPos 600 180 100 100),
     style := "fontSize 12px color #3498DB" }]

/-- `generateDocumentDrivenAutoElements` (hmiAgent.js:3448). -/
def generateDocumentDrivenAutoElements (sc : ScreenContent) : List ElemIn :=
  [{ type := "text", label := "Automatic Operation Mode",
     position := some (mkPos 50 120 400 30),
     style := "fontSize 20px color #F39C12 fontWeight bold" },
   { type := "control_button", label := "START AUTO",
     position := some (mkPos 50 180 180 60),
     style := "backgroundColor #27AE60 color #FFFFFF fontSize 16px" },
   { type := "control_button", label := "STOP AUTO",
     position := some (mkPos 250 180 180 60),
     style := "backgroundColor #E74C3C color #FFFFFF fontSize 16px" },
   { type := "progress_bar", label := "Auto Sequence Progress",
     position := some (mkPos 50 270 400 30),
     style := "fontSize 12px color #3498DB" }] ++
  (withIdx (sc.keyOperations.take 4)).map (fun (i, op) =>
    { type := "status_indicator", label := "AUTO " ++ jsToUpper op,
      position := some (mkPos (50 + ((i % 2 : Nat) : Int) * 300)
        (320 + ((i / 2 : Nat) : Int) * 50) 250 30),
      style := "color #ECF0F1 backgroundColor #27AE60 fontSize 12px" })

/-- `generateDocumentDrivenTestElements` (hmiAgent.js:3493). -/
def generateDocumentDrivenTestElements : List ElemIn :=
  [{ type := "text", label := "System Test & Diagnostics",
     position := some (mkPos 50 120 400 30),
     style := "fontSize 20px color #F39C12 fontWeight bold" },
   { type := "control_button", label := "START TEST",
     position := some (mkPos 500 120 120 50),
     style := "backgroundColor #27AE60 color #FFFFFF fontSize 14px" },
   { type := "control_button", label := "STOP TEST",
     position := some (mkPos 640 120 120 50),
     style := "backgroundColor #E74C3C color #FFFFFF fontSize 14px" },
   { type := "progress_bar", label := "Test Progress",
     position := some (mkPos 50 180 400 25),
     style := "fontSize 12px color #3498DB" },
   { type := "data_table", label := "Test Results",
     position := some (mkPos 50 230 700 200),
     style := "fontSize 11px color #2C3E50" }]

/-- `generateDocumentDrivenPumpElements` (hmiAgent.js:3537). -/
def generateDocumentDrivenPumpElements : List ElemIn :=
  [{ type := "text", label := "Pump Control & Monitoring",
     position := some (mkPos 50 120 400 30),
     style := "fontSize 20px color #F39C12 fontWeight bold" },
   { type := "control_button", label := "START PUMP",
     position := some (mkPos 50 180 150 60),
     style := "backgroundColor #27AE60 color #FFFFFF fontSize 14px" },
   { type := "control_button", label := "STOP PUMP",
     position := some (mkPos 220 180 150 60),
     style := "backgroundColor #E74C3C color #FFFFFF fontSize 14px" },
   { type := "gauge", label := "Pump Pressure",
     position := some (mkPos 400 160 100 100),
     style := "fontSize 12px color #3498DB" },
   { type := "gauge", label := "Flow Rate",
     position := some (mkPos 520 160 100 100),
     style := "fontSize 12px color #2ECC71" },
   { type := "status_indicator", label := "PUMP STATUS",
     position := some (mkPos 650 180 120 40),
     style := "color #ECF0F1 backgroundColor #27AE60 fontSize 14px" }]

/-- `generateDocumentDrivenPurgeElements` (hmiAgent.js:3586). -/
def generateDocumentDrivenPurgeElements : List ElemIn :=
  [{ type := "text", label := "Purging Sequence Control",
     position := some (mkPos 50 120 400 30),
     style := "fontSize 20px color #F39C12 fontWeight bold" },
   { type := "control_button", label := "START PURGE",
     position := some (mkPos 50 180 150 60),
     style := "backgroundColor #F39C12 color #FFFFFF fontSize 14px" },
   { type := "control_button", label := "STOP PURGE",
     position := some (mkPos 220 180 150 60),
     style := "backgroundColor #E74C3C color #FFFFFF fontSize 14px" },
   { type := "progress_bar", label := "Purge Progress",
     position := some (mkPos 50 270 400 30),
     style := "fontSize 12px color #F39C12" },
   { type := "data_display", label := "Purge Time Remaining",
     position := some (mkPos 500 180 200 40),
     style := "fontSize 14px color #2ECC71" },
   { type := "status_indicator", label := "PURGE STATUS",
     position := some (mkPos 500 240 200 40),
     style := "color #ECF0F1 backgroundColor #F39C12 fontSize 14px" }]

/-- `generateDocumentDrivenSettingsElements` (hmiAgent.js:3635). -/
def generateDocumentDrivenSettingsElements (sc : ScreenContent) : List ElemIn :=
  [{ type := "text", label := "System Configuration",
     position := some (mkPos 50 120 400 30),
     style := "fontSize 20px color #F39C12 fontWeight bold" },
   { type := "control_button", label := "SAVE CONFIG",
     position := some (mkPos 50 180 120 50),
     style := "backgroundColor #27AE60 color #FFFFFF fontSize 14px" },
   { type := "control_button", label := "LOAD CONFIG",
     position := some (mkPos 190 180 120 50),
     style := "backgroundColor #3498DB color #FFFFFF fontSize 14px" },
   { type := "control_button", label := "RESET CONFIG",
     position := some (mkPos 330 180 120 50),
     style := "backgroundColor #E74C3C color #FFFFFF fontSize 14px" }] ++
  (withIdx (sc.parameters.take 4)).map (fun (i, param) =>
    { type := "value_input", label := jsToUpper param,
      position := some (mkPos (50 + ((i % 2 : Nat) : Int) * 300)
        (250 + ((i / 2 : Nat) : Int) * 60) 250 40),
      style := "fontSize 12px color #2C3E50" })

/-- `generateDocumentDrivenAlarmElements` (hmiAgent.js:3678).  Note: none of
these elements has type `alarm_indicator`. -/
def generateDocumentDrivenAlarmElements : List ElemIn :=
  [{ type := "text", label := "System Alarms & Faults",
     position := some (mkPos 50 120 400 30),
     style := "fontSize 20px color #E74C3C fontWeight bold" },
   { type := "control_button", label := "ACK ALL",
     position := some (mkPos 500 120 100 40),
     style := "backgroundColor #F39C12 color #FFFFFF fontSize 14px" },
   { type := "control_button", label := "CLEAR ALL",
     position := some (mkPos 620 120 100 40),
     style := "backgroundColor #E74C3C color #FFFFFF fontSize 14px" },
   { type := "data_table", label := "Active Alarms",
     position := some (mkPos 20 180 760 280),
     style := "headerColor #E74C3C rowColor #34495E textColor #ECF0F1" }]

/-- `generateDocumentDrivenTrackingElements` (hmiAgent.js:3710). -/
def generateDocumentDrivenTrackingElements : List ElemIn :=
  [{ type := "text", label := "System Performance Tracking",
     position := some (mkPos 50 120 400 30),
     style := "fontSize 20px color #F39C12 fontWeight bold" },
   { type := "data_table", label := "Performance Data",
     position := some (mkPos 20 180 760 300),
     style := "headerColor #F39C12 rowColor #34495E textColor #ECF0F1" }]

/-- `generateDocumentDrivenUserElements` (hmiAgent.js:3730). -/
def generateDocumentDrivenUserElements : List ElemIn :=
  [{ type := "text", label := "User Access Management",
     position := some (mkPos 50 120 400 30),
     style := "fontSize 20px color #F39C12 fontWeight bold" },
   { type := "control_button", label := "LOGIN",
     position := some (mkPos 50 180 100 50),
     style := "backgroundColor #27AE60 color #FFFFFF fontSize 14px" },
   { type := "control_button", label := "LOGOUT",
     position := some (mkPos 170 180 100 50),
     style := "backgroundColor #E74C3C color #FFFFFF fontSize 14px" },
   { type := "control_button", label := "CHANGE PASSWORD",
     position := some (mkPos 290 180 150 50),
     style := "backgroundColor #3498DB color #FFFFFF fontSize 14px" },
   { type := "data_table", label := "User List",
     position := some (mkPos 50 250 700 200),
     style := "headerColor #3498DB rowColor #34495E textColor #ECF0F1" }]

/-- `generateDocumentDrivenGenericElements` (hmiAgent.js:3768). -/
def generateDocumentDrivenGenericElements (sc : ScreenContent)
    (screenName : String) : List ElemIn :=
  [{ type := "text", label := screenName ++ " Interface",
     position := some (mkPos 50 120 400 30),
     style := "fontSize 18px color #F39C12" }] ++
  gridLoop (fun op bx by_ =>
      { type := "control_button", label := jsToUpper op,
        position := some (mkPos bx by_ 150 50),
        style := "backgroundColor #3498DB color #FFFFFF fontSize 14px" })
    50 170 70 (sc.keyOperations.take 6) 0 50 180 ++
  [{ type := "data_table", label := "System Data",
     position := some (mkPos 20 300 760 200),
     style := "headerColor #F39C12 rowColor #34495E textColor #ECF0F1" }]

/-- `generateAdaptiveElements` (hmiAgent.js:2966): header title and status
indicator, then the category-specific elements, dispatched by substring tests
on the lowercased screen name.  `sc` is the screen-relevant content the source
computes via `extractScreenRelevantContent`. -/
def generateAdaptiveElements (screenName systemType : String)
    (screenNames : List String) (sc : ScreenContent) : List ElemIn :=
  let name := jsToLower screenName
  [{ type := "header_title", label := screenName,
     position := some (mkPos 20 25 400 30),
     style := "fontSize 24px color #ECF0F1 fontWeight bold" },
   { type := "status_indicator", label := "SYSTEM READY",
     position := some (mkPos 600 25 140 30),
     style := "color #ECF0F1 backgroundColor #27AE60" }] ++
  (if strContains name "home" || strContains name "main" then
    generateDocumentDrivenHomeElements systemType screenNames
  else if strContains name "manual" || strContains name "control" then
    generateDocumentDrivenControlElements sc
  else if strContains name "auto" || strContains name "automatic" then
    generateDocumentDrivenAutoElements sc
  else if strContains name "test" || strContains name "diagnostic" then
    generateDocumentDrivenTestElements
  else if strContains name "pump" || strContains name "pumpback" then
    generateDocumentDrivenPumpElements
  else if strContains name "purge" || strContains name "purging" then
    generateDocumentDrivenPurgeElements
  else if strContains name "settings" || strContains name "config" then
    generateDocumentDrivenSettingsElements sc
  else if strContains name "alarm" || strContains name "alert" then
    generateDocumentDrivenAlarmElements
  else if strContains name "time" || strContains name "tracking" then
    generateDocumentDrivenTrackingElements
  else if strContains name "user" || strContains name "management" then
    generateDocumentDrivenUserElements
  else
    generateDocumentDrivenGenericElements sc screenName)

/-- A screen specification as far as the claims inspect it: the elements list
(`generateFallbackSpec` additionally fills in a fixed layout and colour
scheme, not modelled). -/
structure FallbackSpec where
  screenTitle : String
  elements : List ElemIn
deriving DecidableEq, Repr

/-- `generateFallbackSpec` (hmiAgent.js:2924): the fallback specification,
whose elements are exactly `generateAdaptiveElements` — note that no
validation or essential-element pass runs on this path. -/
def generateFallbackSpec (screenName systemType : String)
    (screenNames : List String) (sc : ScreenContent) : FallbackSpec :=
  { screenTitle := screenName
    elements := generateAdaptiveElements screenName systemType screenNames sc }

end Fallback

section Workflow

/-! ## Workflow Composer (`generateWorkflowFromScreens`, hmiAgent.js:86;
`generateTemplateBasedWorkflow`, hmiAgent.js:168;
`generateConciseNavigationFlow`, hmiAgent.js:1088 — the later of the two
definitions of that name, which wins in a JS class body;
`enhanceWithTemplateData`, hmiAgent.js:1161) -/

/-- A screen as produced by the Screen Identifier. -/
structure Screen where
  screenName : String
  screenPurpose : String := ""
  screenType : String := ""
deriving DecidableEq, Repr

/-- A normalized screen transition `{from, to, trigger, description}`.
(`from` is a Lean keyword, hence `src`/`dst` as field names.) -/
structure TransitionOut where
  src : String
  dst : String
  trigger : String
  description : String
deriving DecidableEq, Repr

/-- A raw `screenTransitions` entry of a model response: a bare string,
an object (whose `trigger`/`description` may be missing — modelled by `""`,
which is falsy in JS exactly like `undefined` here), or something else. -/
inductive TransitionIn where
  | str (s : String)
  | obj (src dst trigger description : String)
  | other
deriving DecidableEq, Repr

/-- One `screenAnalysis` entry, as far as the claims inspect it (the
descriptive text fields filled by the template generators — purpose,
keyElements, functionality, behavior, … — are not modelled). -/
structure ScreenAnalysisEntry where
  screenName : String
deriving DecidableEq, Repr

/-- A `WorkflowDiagram` as far as the claims inspect it: the
`navigationFlow.screenTransitions` list and `screenAnalysis` (the
`mermaidDiagram` string and the systemOverview/technical metadata are not
modelled). -/
structure WorkflowData where
  totalScreens : Nat
  screenAnalysis : List ScreenAnalysisEntry
  screenTransitions : List TransitionOut
deriving DecidableEq, Repr

/-- A model-returned workflow object before reconciliation:
`navigationFlow`/`screenTransitions` and `screenAnalysis` may be absent. -/
structure WorkflowDataIn where
  screenAnalysis : Option (List ScreenAnalysisEntry) := none
  screenTransitions : Option (List TransitionIn) := none
deriving DecidableEq, Repr

/-- `generateConciseNavigationFlow` (hmiAgent.js:1088): hub-and-spoke
transitions from the home screen (or the first screen) to up to six others.
`none` models the TypeError the source throws on an empty screen list
(`screens[0]` is `undefined`). -/
def generateConciseNavigationFlow (screens : List Screen) :
    Option (List TransitionOut) :=
  match (screens.find? (fun s => strContains (jsToLower s.screenName) "home")).orElse
      (fun _ => screens.head?) with
  | none => none
  | some homeScreen =>
    let otherScreens := screens.filter (fun s => s.screenName ≠ homeScreen.screenName)
    some ((otherScreens.take 6).map (fun s =>
      { src := homeScreen.screenName
        dst := s.screenName
        trigger := "User selection"
        description := "Navigate from " ++ homeScreen.screenName ++ " to " ++
          s.screenName }))

/-- `generateTemplateBasedWorkflow` (hmiAgent.js:168): one `screenAnalysis`
entry per screen in input order, plus the concise navigation flow. -/
def generateTemplateBasedWorkflow (screens : List Screen) : Option WorkflowData :=
  match generateConciseNavigationFlow screens with
  | none => none
  | some transitions =>
    some { totalScreens := screens.length
           screenAnalysis := screens.map (fun s => { screenName := s.screenName })
           screenTransitions := transitions }

/-- The string-transition parse of `enhanceWithTemplateData`
(hmiAgent.js:1218): regex `/^(.*?)\s*->\s*(.*?)$/` — everything before the
first `->` and everything after it, both trimmed; no match (no `->`) yields
`null`, which `filter(Boolean)` later drops. -/
def parseTransitionString (s : String) : Option TransitionOut :=
  match strSplitFirst s "->" with
  | none => none
  | some (before, after) =>
    let src := jsTrim before
    let dst := jsTrim after
    some { src := src, dst := dst, trigger := "User selection"
           description := "Navigate from " ++ src ++ " to " ++ dst }

/-- The per-entry normalization of `screenTransitions` in
`enhanceWithTemplateData` (hmiAgent.js:1214-1242). -/
def sanitizeTransition : TransitionIn → Option TransitionOut
  | .str s => parseTransitionString s
  | .obj src dst trigger description =>
    some { src := src, dst := dst
           trigger := jsOrS trigger "User selection"
           description := jsOrS description
             ("Navigate from " ++ src ++ " to " ++ dst) }
  | .other => none

/-- `enhanceWithTemplateData` (hmiAgent.js:1161), restricted to the fields
modelled here.  The screen-analysis sanitation (keyElements string coercion,
navigation/purpose/… gap filling) rewrites fields that are not modelled;
entries and their `screenName` pass through unchanged.  `none` models the
exception propagated from `generateConciseNavigationFlow` on an empty screen
list. -/
def enhanceWithTemplateData (wd : WorkflowDataIn) (screens : List Screen) :
    Option WorkflowData :=
  let analysis :=
    match wd.screenAnalysis with
    | some l => l
    | none => screens.map (fun s => { screenName := s.screenName })
  match wd.screenTransitions with
  | some ts =>
    some { totalScreens := screens.length
           screenAnalysis := analysis
           screenTransitions := ts.filterMap sanitizeTransition }
  | none =>
    match generateConciseNavigationFlow screens with
    | none => none
    | some transitions =>
      some { totalScreens := screens.length
             screenAnalysis := analysis
             screenTransitions := transitions }

/-- `generateWorkflowFromScreens` (hmiAgent.js:86): at most three screens
take the deterministic template path; otherwise the model is called and its
response (`none` models an unreachable model or unparsable JSON) is
reconciled by `enhanceWithTemplateData`. -/
def generateWorkflowFromScreens (screens : List Screen)
    (aiResponse : Option WorkflowDataIn) : Option WorkflowData :=
  if screens.length ≤ 3 then
    generateTemplateBasedWorkflow screens
  else
    match aiResponse with
    | none => generateTemplateBasedWorkflow screens
    | some wd => enhanceWithTemplateData wd screens

end Workflow

section Reader

/-! ## Document Reader (`readDocument`, hmiAgent.js:4591) -/

/-- `readDocument` (hmiAgent.js:4591), shallowly embedded over the outcomes
of its two I/O effects: `mammothResult` is the rich-text extraction
(`mammoth.extractRawText`) and `rawRead` the plain `fs.readFileSync`, each
either a text (`ok`) or a thrown error message (`error`).  `ext` is the
lowercased file extension `path.extname(filePath).toLowerCase()`.  The
result is `Except.error` when the source lets the exception escape. -/
def readDocument (ext : String) (mammothResult rawRead : Except String String) :
    Except String String :=
  if ext == ".txt" then
    rawRead
  else if ext == ".docx" then
    match mammothResult with
    | .ok value => .ok value
    | .error _ =>
      match rawRead with
      | .ok content => .ok content
      | .error msg => .ok ("[Document could not be read: " ++ msg ++ "]")
  else
    rawRead

end Reader

section Renderer

/-! ## Layout Renderer clamping passes (`createScreenImage`, hmiAgent.js:4126) -/

/-- A header/footer sub-element as the clamping pass reads it: a numeric `y`
and a possibly-missing `height` (`el.position.height || 20`).  Elements whose
`y` is not a number produce `NaN` in the source and are outside this model;
fields not touched by the clamp (x, width, type, label) are carried opaquely
by `label`. -/
structure HFElem where
  label : String := ""
  y : Int
  height : Option Int := none
deriving DecidableEq, Repr

/-- The header clamp (hmiAgent.js:4151-4157):
`el.position.y = Math.min(Math.max(el.position.y, 5), headerHeight - (el.position.height || 20))`. -/
def clampHeaderElems (headerHeight : Int) (els : List HFElem) : List HFElem :=
  els.map (fun e => { e with y := min (max e.y 5) (headerHeight - jsOrI e.height 20) })

/-- The footer clamp (hmiAgent.js:4160-4166):
`el.position.y = footerY + Math.min(Math.max(el.position.y - footerY, 0), footerHeight - (el.position.height || 20))`. -/
def clampFooterElems (footerY footerHeight : Int) (els : List HFElem) : List HFElem :=
  els.map (fun e =>
    { e with y := footerY + min (max (e.y - footerY) 0) (footerHeight - jsOrI e.height 20) })

/-- The clamping prologue of `createScreenImage` (hmiAgent.js:4146-4166):
effective band heights default to 80/60, `footerY = 600 - footerHeight`;
returns the clamped header and footer element lists (the subsequent drawing
does not move elements). -/
def createScreenImageClamp (headerHeightField footerHeightField : Option Int)
    (headerEls footerEls : List HFElem) : List HFElem × List HFElem :=
  let headerHeight := jsOrI headerHeightField 80
  let footerHeight := jsOrI footerHeightField 60
  let footerY : Int := 600 - footerHeight
  (clampHeaderElems headerHeight headerEls,
   clampFooterElems footerY footerHeight footerEls)

end Renderer

section Keywords

/-! ## Keyword Extractor (`extractSystemKeywords`, hmiAgent.js:2160) -/

/-- `matchesWordAt prev t p`: the regex `/\bp\b/` matches at the start of `t`
when the preceding character (`prev`, `none` at the string start) is not a
word character, `p` occurs, and the following character (if any) is not a
word character.  All patterns consist of word characters only, so `\b`
reduces to these two neighbour tests. -/
def matchesWordAt (prev : Option Char) (t p : List Char) : Bool :=
  (match prev with | some c => !isWordChar c | none => true) &&
  listStartsWith t p &&
  (match t.drop p.length with
   | [] => true
   | c :: _ => !isWordChar c)

/-- Count the matches of `/\bp\b/g` in `t` (word-boundary matches cannot
overlap, so counting match positions equals the `g`-flag match count). -/
def countWordMatchesGo (p : List Char) : Option Char → List Char → Nat
  | _, [] => 0
  | prev, c :: rest =>
    (if matchesWordAt prev (c :: rest) p then 1 else 0) +
      countWordMatchesGo p (some c) rest

/-- `(lowerContent.match(/\bpattern\b/gi) || []).length`. -/
def countWordMatches (text pattern : String) : Nat :=
  countWordMatchesGo pattern.data none text.data

/-- The ordered `systemPatterns` dictionary (hmiAgent.js:2170-2187). -/
def systemPatterns : List (String × List String) :=
  [("generator_control", ["generator", "standby", "backup", "power", "diesel",
      "engine", "alternator", "utility", "transfer", "switch"]),
   ("water_treatment", ["water", "treatment", "filtration", "purification",
      "clarification", "chlorination", "disinfection"]),
   ("gas_analyzer", ["gas", "analyzer", "sf6", "concentration", "ppm",
      "measurement", "spectrometer"]),
   ("motor_control", ["motor", "drive", "speed", "torque", "rpm", "inverter",
      "starter"]),
   ("pump_system", ["pump", "flow", "pressure", "suction", "discharge",
      "centrifugal", "impeller"]),
   ("cylinder_control", ["cylinder", "extend", "retract", "acting", "pneumatic",
      "hydraulic", "actuator"]),
   ("plc_system", ["plc", "logic", "controller", "input", "output", "ladder",
      "programming"]),
   ("hvac_system", ["hvac", "temperature", "heating", "cooling", "ventilation",
      "air", "conditioning"]),
   ("conveyor_system", ["conveyor", "belt", "transport", "material", "handling",
      "sorting"]),
   ("valve_control", ["valve", "open", "close", "position", "actuator", "flow",
      "control"]),
   ("power_generation", ["generator", "turbine", "power", "electrical", "grid",
      "transmission"]),
   ("chemical_processing", ["chemical", "reactor", "distillation", "separation",
      "catalyst", "process"]),
   ("oil_gas_processing", ["oil", "gas", "refinery", "crude", "petroleum",
      "hydrocarbon", "pipeline"]),
   ("manufacturing", ["manufacturing", "production", "assembly", "fabrication",
      "quality", "inspection"]),
   ("packaging", ["packaging", "labeling", "sealing", "filling", "wrapping",
      "bottling"]),
   ("food_beverage", ["food", "beverage", "pasteurization", "sterilization",
      "fermentation", "mixing"])]

/-- The `primaryKeywords` bonus dictionary (hmiAgent.js:2212-2218). -/
def primaryKeywords (type : String) : List String :=
  if type == "generator_control" then
    ["generator", "standby", "backup", "power", "diesel", "engine", "alternator"]
  else if type == "water_treatment" then ["water", "treatment"]
  else if type == "gas_analyzer" then ["gas", "analyzer"]
  else if type == "motor_control" then ["motor", "control"]
  else if type == "pump_system" then ["pump", "system"]
  else []

/-- The score of one category (hmiAgent.js:2194-2226): word-boundary match
counts, a `matched.length * 2` bonus once at least two distinct patterns
match, and `+5` per primary keyword occurring as a plain substring. -/
def categoryScore (lowerContent : String) (patterns : List String)
    (type : String) : Nat :=
  let counts := patterns.map (countWordMatches lowerContent)
  let base := counts.foldl (· + ·) 0
  let matched := counts.filter (· > 0)
  let bonus := if matched.length ≥ 2 then matched.length * 2 else 0
  let primaryBonus := ((primaryKeywords type).filter
    (fun p => strContains lowerContent p)).length * 5
  base + bonus + primaryBonus

/-- The winning entry: categories with positive score in dictionary order,
reduced by "strictly greater replaces" — exactly the first maximum, which is
what the source's stable descending sort followed by `[0]` selects. -/
def bestCategory (scored : List (String × Nat)) : Option (String × Nat) :=
  scored.foldl (fun best entry =>
    match best with
    | none => some entry
    | some b => if entry.2 > b.2 then some entry else some b) none

/-- The `operationPatterns` list (hmiAgent.js:2250-2253). -/
def operationPatterns : List String :=
  ["start", "stop", "manual", "auto", "automatic", "test", "calibrate",
   "settings", "alarm", "reset", "transfer", "utility", "generator",
   "emergency", "override", "load", "shed", "paralleling"]

/-- The `componentPatterns` list (hmiAgent.js:2257-2261). -/
def componentPatterns : List String :=
  ["sensor", "valve", "motor", "pump", "heater", "cooler", "display", "button",
   "indicator", "engine", "alternator", "generator", "battery", "charger",
   "voltage", "current", "frequency", "temperature", "pressure", "rpm", "fuel",
   "coolant", "oil", "air", "filter", "transfer", "switch"]

/-- The `controlPatterns` list (hmiAgent.js:2265-2268). -/
def controlPatterns : List String :=
  ["control", "monitor", "feedback", "status", "command", "setpoint",
   "parameter", "operating", "mode", "selector", "protection", "interlock",
   "safety", "emergency"]

/-- The keyword profile returned by `extractSystemKeywords`. -/
structure SystemKeywords where
  systemType : List String
  operations : List String
  components : List String
  controls : List String
deriving DecidableEq, Repr

/-- `extractSystemKeywords` (hmiAgent.js:2160). -/
def extractSystemKeywords (content : String) : SystemKeywords :=
  let lowerContent := jsToLower content
  let scored := systemPatterns.filterMap (fun (type, patterns) =>
    let s := categoryScore lowerContent patterns type
    if s > 0 then some (type, s) else none)
  let systemType :=
    match bestCategory scored with
    | some (type, s) => if s ≥ 3 then [type] else ["industrial_control"]
    | none => ["industrial_control"]
  { systemType := systemType
    operations := operationPatterns.filter (strContains lowerContent)
    components := componentPatterns.filter (strContains lowerContent)
    controls := controlPatterns.filter (strContains lowerContent) }

end Keywords

/-! ## Helper lemmas -/

/-- Frame relation between an input element and its validated output:
all non-position fields agree, and the rewritten position is fully populated
with `x ≥ 20`, `y ≥ 120`, `width ∈ [80,400]`, `height ≥ 30`. -/
def validatedFrame (e o : ElemIn) : Prop :=
  o.type = e.type ∧ o.label = e.label ∧ o.style = e.style ∧
  o.purpose = e.purpose ∧ o.userAction = e.userAction ∧
  ∃ x y w h, o.position = some (mkPos x y w h) ∧
    20 ≤ x ∧ 120 ≤ y ∧ 80 ≤ w ∧ w ≤ 400 ∧ 30 ≤ h

theorem validatePositionsGo_forallTwo (es : List ElemIn) :
    ∀ idx cy, List.Forall₂ validatedFrame es (validatePositionsGo es idx cy) := by
  induction es with
  | nil => intro idx cy; exact List.Forall₂.nil
  | cons e rest ih =>
    intro idx cy
    refine List.Forall₂.cons ⟨rfl, rfl, rfl, rfl, rfl, ?_⟩ (ih _ _)
    refine ⟨_, _, _, _, rfl, le_max_left _ _, le_max_left _ _, ?_, min_le_left _ _,
      le_max_left _ _⟩
    exact le_min (by norm_num) (le_max_left _ _)

theorem validatePositionsGo_length (es : List ElemIn) :
    ∀ idx cy, (validatePositionsGo es idx cy).length = es.length := by
  induction es with
  | nil => intro idx cy; rfl
  | cons e rest ih => intro idx cy; simp [validatePositionsGo, ih]

theorem mem_validatePositionsGo (es : List ElemIn) :
    ∀ idx cy e, e ∈ validatePositionsGo es idx cy →
      ∃ x y w h, e.position = some (mkPos x y w h) ∧
        20 ≤ x ∧ 120 ≤ y ∧ 80 ≤ w ∧ w ≤ 400 ∧ 30 ≤ h := by
  induction es with
  | nil => intro idx cy e h; simp [validatePositionsGo] at h
  | cons a rest ih =>
    intro idx cy e h
    rw [validatePositionsGo, List.mem_cons] at h
    rcases h with h | h
    · subst h
      refine ⟨_, _, _, _, rfl, le_max_left _ _, le_max_left _ _, ?_, min_le_left _ _,
        le_max_left _ _⟩
      exact le_min (by norm_num) (le_max_left _ _)
    · exact ih _ _ _ h

/-- Structure of `ensureEssentialElements`: the input appears as a contiguous
block, with at most the synthesized title prepended and at most the
synthesized status indicator appended; if nothing is appended the input
already contained a status indicator. -/
theorem ensureEssentialElements_split (es : List ElemIn) (sn : String) :
    ∃ pre post, ensureEssentialElements es sn = pre ++ es ++ post ∧
      (pre = [] ∨ pre = [titleElement sn]) ∧
      (post = [] ∨ post = [statusElement]) ∧
      (post = [statusElement] ∨ ∃ e ∈ es, e.type = "status_indicator") := by
  rw [ensureEssentialElements]
  cases hT : es.any isTitleLike <;> cases hS : es.any (fun el => el.type == "status_indicator")
  · exact ⟨[titleElement sn], [statusElement], by simp, Or.inr rfl, Or.inr rfl, Or.inl rfl⟩
  · refine ⟨[titleElement sn], [], by simp, Or.inr rfl, Or.inl rfl, Or.inr ?_⟩
    obtain ⟨e, he, hty⟩ := List.any_eq_true.mp hS
    exact ⟨e, he, by simpa using hty⟩
  · exact ⟨[], [statusElement], by simp, Or.inl rfl, Or.inr rfl, Or.inl rfl⟩
  · refine ⟨[], [], by simp, Or.inl rfl, Or.inl rfl, Or.inr ?_⟩
    obtain ⟨e, he, hty⟩ := List.any_eq_true.mp hS
    exact ⟨e, he, by simpa using hty⟩

theorem generateAdditionalElements_length (terms : List String) (count : Nat) :
    (generateAdditionalElements terms count).length = count := by
  simp [generateAdditionalElements]

/-- A string with a non-empty left part is non-empty. -/
theorem string_append_ne_empty (s t : String) (h : 0 < s.length) : s ++ t ≠ "" := by
  intro heq
  have hlen := congrArg String.length heq
  rw [String.length_append] at hlen
  simp at hlen
  omega

theorem bounds_of_ensure_validate (padded : List ElemIn) (sn : String)
    (hlen : 6 ≤ padded.length) :
    6 ≤ (ensureEssentialElements (validateElementPositions padded) sn).length ∧
    ∀ e ∈ ensureEssentialElements (validateElementPositions padded) sn,
      ∃ x y w h, e.position = some (mkPos x y w h) ∧
        0 ≤ x ∧ 0 ≤ y ∧ 80 ≤ w ∧ w ≤ 400 ∧ 30 ≤ h := by
  obtain ⟨pre, post, heq, hpre, hpost, _⟩ :=
    ensureEssentialElements_split (validateElementPositions padded) sn
  constructor
  · rw [heq]
    have hv : (validateElementPositions padded).length = padded.length :=
      validatePositionsGo_length padded 0 120
    simp only [List.length_append]
    omega
  · intro e he
    rw [heq] at he
    simp only [List.append_assoc, List.mem_append] at he
    rcases he with he | he | he
    · rcases hpre with h | h <;> subst h
      · simp at he
      · simp only [List.mem_singleton] at he
        subst he
        exact ⟨20, 25, 400, 30, rfl, by norm_num, by norm_num, by norm_num,
          by norm_num, by norm_num⟩
    · obtain ⟨x, y, w, h, hp, hx, hy, hw1, hw2, hh⟩ :=
        mem_validatePositionsGo padded 0 120 e he
      exact ⟨x, y, w, h, hp, by omega, by omega, hw1, hw2, hh⟩
    · rcases hpost with h | h <;> subst h
      · simp at he
      · simp only [List.mem_singleton] at he
        subst he
        exact ⟨600, 25, 140, 30, rfl, by norm_num, by norm_num, by norm_num,
          by norm_num, by norm_num⟩

/-! ## Claims -/

/-- Claim C9: `validateElementPositions` returns a list of the same length in
the same order; each output element agrees with the corresponding input
element on every field other than `position` (type, label, style, purpose,
userAction unchanged), and only the position record is rewritten, with width
clamped into `[80, 400]` and height at least 30. -/
theorem claim9_theorem (es : List ElemIn) :
    (validateElementPositions es).length = es.length ∧
    List.Forall₂ validatedFrame es (validateElementPositions es) :=
  ⟨validatePositionsGo_length es 0 120, validatePositionsGo_forallTwo es 0 120⟩

/-- Claim C10: `ensureEssentialElements` never removes, reorders or mutates
the input elements — they appear as a contiguous block, with at most one text
title prepended and at most one status indicator appended — and the result
always contains a `status_indicator` element. -/
theorem claim10_theorem (es : List ElemIn) (sn : String) :
    ∃ pre post, ensureEssentialElements es sn = pre ++ es ++ post ∧
      pre.length ≤ 1 ∧ post.length ≤ 1 ∧
      (∀ e ∈ pre, e.type = "text") ∧
      (∀ e ∈ post, e.type = "status_indicator") ∧
      ∃ e ∈ ensureEssentialElements es sn, e.type = "status_indicator" := by
  obtain ⟨pre, post, heq, hpre, hpost, hstat⟩ := ensureEssentialElements_split es sn
  refine ⟨pre, post, heq, ?_, ?_, ?_, ?_, ?_⟩
  · rcases hpre with h | h <;> simp [h]
  · rcases hpost with h | h <;> simp [h]
  · intro e he
    rcases hpre with h | h <;> subst h
    · simp at he
    · simp only [List.mem_singleton] at he
      subst he
      rfl
  · intro e he
    rcases hpost with h | h <;> subst h
    · simp at he
    · simp only [List.mem_singleton] at he
      subst he
      rfl
  · rcases hstat with h | h
    · subst h
      exact ⟨statusElement, by rw [heq]; simp, rfl⟩
    · obtain ⟨e, hmem, hty⟩ := h
      exact ⟨e, by rw [heq]; simp [hmem], hty⟩

/-- Claim C1 (amended): every element list leaving the model-based validation
pipeline of `validateAndEnhanceSpec` has at least 6 elements, every element a
fully populated position with `x ≥ 0`, `y ≥ 0`, `width ∈ [80,400]` and
`height ≥ 30` — the upper canvas bounds `x+width ≤ 800` / `y+height ≤ 600`
claimed by the spec are not established (see the counterexample), and the
rule-based fallback path can emit fewer than 6 elements. -/
theorem claim1_theorem (els : List ElemIn) (sn : String) (terms : List String) :
    6 ≤ (validateAndEnhanceSpecElements els sn terms).length ∧
    ∀ e ∈ validateAndEnhanceSpecElements els sn terms,
      ∃ x y w h, e.position = some (mkPos x y w h) ∧
        0 ≤ x ∧ 0 ≤ y ∧ 80 ≤ w ∧ w ≤ 400 ∧ 30 ≤ h := by
  have hpad : 6 ≤ (if els.length < 6 then
      els ++ generateAdditionalElements terms (8 - els.length) else els).length := by
    split
    · rw [List.length_append, generateAdditionalElements_length]
      omega
    · omega
  exact bounds_of_ensure_validate _ sn hpad

/-- The canvas-bounds policy the claim asserts of every emitted element
(spec §8): a fully populated position with `0 ≤ x`, `0 ≤ y`,
`x+width ≤ 800`, `y+height ≤ 600`. -/
def specCanvasBounds (e : ElemIn) : Bool :=
  match e.position with
  | some ⟨some x, some y, some w, some h⟩ =>
    decide (0 ≤ x) && decide (0 ≤ y) && decide (x + w ≤ 800) && decide (y + h ≤ 600)
  | _ => false

/-- Claim C1 counterexample: (a) a model-produced element at `x = 700`,
`width = 400` passes position validation untouched, so the emitted screen
violates `x + width ≤ 800`; (b) the rule-based fallback for a screen named
"Time Tracking Screen" emits only 4 elements, violating
`elements.length ≥ 6`. -/
theorem claim1_counterexample :
    ((validateAndEnhanceSpecElements
        (List.replicate 6
          { type := "control_button", label := "START",
            position := some (mkPos 700 200 400 40) })
        "Main Screen" []).all specCanvasBounds = false) ∧
    (generateFallbackSpec "Time Tracking Screen" "industrial_control" []
        {}).elements.length < 6 := by
  constructor
  · decide
  · decide

/-- Claim C2 (amended): for a screen named "Alarm Screen" the rule-based
fallback produces the alarm category's elements — acknowledge/clear controls,
an "Active Alarms" data table and a status indicator — but no element of type
`alarm_indicator` at all: the category generator only emits
text/control_button/data_table elements. -/
theorem claim2_theorem (st : String) (sns : List String) (sc : ScreenContent) :
    (∀ e ∈ (generateFallbackSpec "Alarm Screen" st sns sc).elements,
      e.type ≠ "alarm_indicator") ∧
    (∃ e ∈ (generateFallbackSpec "Alarm Screen" st sns sc).elements,
      e.type = "status_indicator") ∧
    ∃ e ∈ (generateFallbackSpec "Alarm Screen" st sns sc).elements,
      e.type = "data_table" ∧ e.label = "Active Alarms" := by
  have h : (generateFallbackSpec "Alarm Screen" st sns sc).elements =
      (generateFallbackSpec "Alarm Screen" "" [] {}).elements := rfl
  rw [h]
  decide

/-- Claim C2 counterexample: the fallback specification for "Alarm Screen"
(the path the claim says guarantees an `alarm_indicator`) contains no element
of that type. -/
theorem claim2_counterexample :
    ((generateFallbackSpec "Alarm Screen" "industrial_control"
        ["Home Screen", "Alarm Screen"]
        { keyOperations := ["start", "stop"], relatedEquipment := ["sensor"],
          parameters := ["setpoint"] }).elements.any
      (fun e => e.type == "alarm_indicator")) = false := by
  decide

/-- The navigation descriptions built by the workflow code are never empty. -/
theorem navDesc_ne_empty (a b : String) :
    "Navigate from " ++ a ++ " to " ++ b ≠ "" := by
  apply string_append_ne_empty
  rw [String.length_append, String.length_append]
  have h : 0 < "Navigate from ".length := by decide
  omega

theorem sanitizeTransition_fields (a : TransitionIn) (t : TransitionOut)
    (h : sanitizeTransition a = some t) :
    t.trigger ≠ "" ∧ t.description ≠ "" := by
  cases a with
  | str s =>
    rw [sanitizeTransition, parseTransitionString] at h
    cases hsp : strSplitFirst s "->" with
    | none => rw [hsp] at h; exact absurd h (by simp)
    | some p =>
      obtain ⟨before, after⟩ := p
      rw [hsp] at h
      simp only [Option.some.injEq] at h
      subst h
      refine ⟨?_, navDesc_ne_empty _ _⟩
      show ("User selection" : String) ≠ ""
      decide
  | obj src dst trig desc =>
    rw [sanitizeTransition] at h
    simp only [Option.some.injEq] at h
    subst h
    constructor
    · show jsOrS trig "User selection" ≠ ""
      rw [jsOrS]
      split_ifs with hc
      · decide
      · exact hc
    · show jsOrS desc ("Navigate from " ++ src ++ " to " ++ dst) ≠ ""
      rw [jsOrS]
      split_ifs with hc
      · exact navDesc_ne_empty _ _
      · exact hc
  | other => rw [sanitizeTransition] at h; exact absurd h (by simp)

theorem conciseNav_fields (screens : List Screen) (ts : List TransitionOut)
    (h : generateConciseNavigationFlow screens = some ts) :
    ∀ t ∈ ts, t.trigger ≠ "" ∧ t.description ≠ "" := by
  rw [generateConciseNavigationFlow] at h
  cases hfind : (screens.find? (fun s => strContains (jsToLower s.screenName) "home")).orElse
      (fun _ => screens.head?) with
  | none => rw [hfind] at h; exact absurd h (by simp)
  | some homeScreen =>
    rw [hfind] at h
    simp only [Option.some.injEq] at h
    subst h
    intro t ht
    simp only [List.mem_map] at ht
    obtain ⟨s, _, rfl⟩ := ht
    refine ⟨?_, navDesc_ne_empty _ _⟩
    show ("User selection" : String) ≠ ""
    decide

/-- Claim C3 (amended): the reconciliation pass normalizes every surviving
transition to an object with a non-empty trigger and a non-empty description
(bare "A -> B" strings are parsed, unparsable entries dropped) — but it does
not restrict `from`/`to` to existing screen names; dangling references are
kept (see the counterexample). -/
theorem claim3_theorem (wd : WorkflowDataIn) (screens : List Screen)
    (out : WorkflowData) (h : enhanceWithTemplateData wd screens = some out) :
    ∀ t ∈ out.screenTransitions, t.trigger ≠ "" ∧ t.description ≠ "" := by
  simp only [enhanceWithTemplateData] at h
  cases hts : wd.screenTransitions with
  | some ts =>
    rw [hts] at h
    simp only [Option.some.injEq] at h
    subst h
    intro t ht
    simp only [List.mem_filterMap] at ht
    obtain ⟨a, _, hsan⟩ := ht
    exact sanitizeTransition_fields a t hsan
  | none =>
    rw [hts] at h
    cases hnav : generateConciseNavigationFlow screens with
    | none => rw [hnav] at h; exact absurd h (by simp)
    | some ts2 =>
      rw [hnav] at h
      simp only [Option.some.injEq] at h
      subst h
      exact conciseNav_fields screens ts2 hnav

/-- The property the claim asserts of the reconciled workflow: every
transition's endpoints name screens from the screen list. -/
def transitionsReferenceScreens (wd : WorkflowData) (screens : List Screen) : Bool :=
  wd.screenTransitions.all (fun t =>
    screens.any (fun s => s.screenName == t.src) &&
    screens.any (fun s => s.screenName == t.dst))

/-- Claim C3 counterexample: a model transition `{from: "Ghost", to: "Phantom"}`
— neither a screen name — survives `enhanceWithTemplateData` unchanged apart
from the filled trigger/description; the dangling reference is kept, not
repaired or dropped. -/
theorem claim3_counterexample :
    (enhanceWithTemplateData
        { screenAnalysis := none,
          screenTransitions := some [.obj "Ghost" "Phantom" "" ""] }
        [{ screenName := "Home Screen" }]).map
      (fun wd => transitionsReferenceScreens wd [{ screenName := "Home Screen" }]) =
    some false := by
  decide

/-- Claim C3 witness: the amended normalization theorem applied to a concrete
reconciliation run — the transition parsed from the string "A -> B" carries a
non-empty trigger and description. -/
theorem claim3_witness :
    (TransitionOut.mk "A" "B" "User selection" "Navigate from A to B").trigger ≠ "" ∧
    (TransitionOut.mk "A" "B" "User selection" "Navigate from A to B").description ≠ "" :=
  claim3_theorem
    { screenAnalysis := none, screenTransitions := some [.str "A -> B"] }
    [{ screenName := "Home Screen" }]
    (WorkflowData.mk 1 [{ screenName := "Home Screen" }]
      [TransitionOut.mk "A" "B" "User selection" "Navigate from A to B"]) rfl
    (TransitionOut.mk "A" "B" "User selection" "Navigate from A to B")
    (by decide)

/-- Claim C4 (amended): for `.docx` documents `readDocument` never lets an
exception escape — extraction failure falls back to a raw read and finally to
the `[Document could not be read: …]` placeholder — but for `.txt` and every
other extension the raw read's outcome, including a thrown error, passes
straight through. -/
theorem claim4_theorem :
    (∀ m r, ∃ s, readDocument ".docx" m r = Except.ok s) ∧
    (∀ (ext : String) m r, ext ≠ ".docx" → readDocument ext m r = r) := by
  constructor
  · intro m r
    cases m with
    | ok v => exact ⟨v, rfl⟩
    | error e =>
      cases r with
      | ok c => exact ⟨c, rfl⟩
      | error msg => exact ⟨_, rfl⟩
  · intro ext m r h
    simp only [readDocument]
    by_cases ht : ext = ".txt"
    · simp [ht]
    · simp [ht, h]

/-- Claim C4 counterexample: reading a `.txt` file whose raw read throws
(e.g. a missing file) propagates the exception — `readDocument` does not
return a placeholder string for this input. -/
theorem claim4_counterexample :
    readDocument ".txt" (Except.error "mammoth failed")
        (Except.error "ENOENT: no such file or directory") =
      Except.error "ENOENT: no such file or directory" ∧
    ∀ s, readDocument ".txt" (Except.error "mammoth failed")
        (Except.error "ENOENT: no such file or directory") ≠ Except.ok s := by
  refine ⟨rfl, fun s h => ?_⟩
  rw [show readDocument ".txt" (Except.error "mammoth failed")
      (Except.error "ENOENT: no such file or directory") =
      Except.error "ENOENT: no such file or directory" from rfl] at h
  exact Except.noConfusion h

/-- Claim C4 witness: the amended theorem applied at concrete inputs — a
`.docx` whose extraction and raw read both fail still yields an `ok` result,
and a `.pdf` read passes the raw result through. -/
theorem claim4_witness :
    (∃ s, readDocument ".docx" (Except.error "bad zip")
      (Except.error "EACCES") = Except.ok s) ∧
    readDocument ".pdf" (Except.error "bad zip") (Except.ok "raw bytes") =
      Except.ok "raw bytes" :=
  ⟨claim4_theorem.1 (Except.error "bad zip") (Except.error "EACCES"),
   claim4_theorem.2 ".pdf" (Except.error "bad zip") (Except.ok "raw bytes")
     (by decide)⟩

/-- Concatenation of the `content` arrays of a section list, in order. -/
def sectionsContent : List Sect → List String
  | [] => []
  | s :: rest => s.content ++ sectionsContent rest

theorem sectionsContent_append (a b : List Sect) :
    sectionsContent (a ++ b) = sectionsContent a ++ sectionsContent b := by
  induction a with
  | nil => simp [sectionsContent]
  | cons s rest ih => simp [sectionsContent, ih]

theorem processLines_content (ls : List String) :
    ∀ cur, sectionsContent (processLines ls cur) =
      (match cur with | some s => s.content | none => []) ++
        (ls.filter (fun l => !isHeading l)).map jsTrim := by
  induction ls with
  | nil =>
    intro cur
    cases cur with
    | none => simp [processLines, sectionsContent]
    | some s => simp [processLines, sectionsContent, Option.toList]
  | cons l ls ih =>
    intro cur
    cases hh : isHeading l with
    | true =>
      cases cur with
      | none => simp [processLines, hh, sectionsContent_append, ih, sectionsContent,
          List.filter_cons, Option.toList]
      | some s => simp [processLines, hh, sectionsContent_append, ih, sectionsContent,
          List.filter_cons, Option.toList]
    | false =>
      cases cur with
      | none => simp [processLines, hh, ih, sectionsContent, List.filter_cons]
      | some s => simp [processLines, hh, ih, sectionsContent, List.filter_cons]

/-- Claim C5 (amended): concatenating the section contents in order
reproduces exactly the trimmed non-empty lines of the input that are **not**
classified as headings (heading lines become section headings, not content),
with nothing dropped or duplicated; and an empty document yields an empty
section list — no sections at all — rather than an error. -/
theorem claim5_theorem :
    (∀ content, sectionsContent (createBasicStructure content) =
      ((nonEmptyLines content).filter (fun l => !isHeading l)).map jsTrim) ∧
    createBasicStructure "" = [] := by
  constructor
  · intro content
    have h := processLines_content (nonEmptyLines content) none
    simpa [createBasicStructure] using h
  · rfl

/-- Claim C5 counterexample: for the input `"1. Intro\nhello"` the line
`"1. Intro"` is a heading, so the concatenated section contents (`["hello"]`)
do not reproduce the non-empty trimmed line sequence; and the empty document
yields zero sections, not a single empty one. -/
theorem claim5_counterexample :
    (sectionsContent (createBasicStructure "1. Intro\nhello") ≠
      (nonEmptyLines "1. Intro\nhello").map jsTrim) ∧
    (createBasicStructure "").length = 0 := by
  decide

/-- Claim C6 (amended): after the clamping pass of `createScreenImage`, every
header element satisfies `y + height ≤ headerHeight` and
`y ≥ min(5, headerHeight − height)` — the lower bound is 5, not the 10 the
claim states (see the counterexample) — and every footer element satisfies
`y + height ≤ 600` and `y ≥ footerY + min(0, footerHeight − height)`
(so `y ≥ footerY` whenever the element fits its band). -/
theorem claim6_theorem (hhF ffF : Option Int) (hEls fEls : List HFElem) :
    (∀ e ∈ (createScreenImageClamp hhF ffF hEls fEls).1,
      e.y + jsOrI e.height 20 ≤ jsOrI hhF 80 ∧
      min 5 (jsOrI hhF 80 - jsOrI e.height 20) ≤ e.y) ∧
    (∀ e ∈ (createScreenImageClamp hhF ffF hEls fEls).2,
      e.y + jsOrI e.height 20 ≤ 600 ∧
      600 - jsOrI ffF 60 + min 0 (jsOrI ffF 60 - jsOrI e.height 20) ≤ e.y) := by
  constructor
  · intro e he
    simp only [createScreenImageClamp, clampHeaderElems, List.mem_map] at he
    obtain ⟨a, _, rfl⟩ := he
    dsimp only
    constructor
    · rw [Int.min_def, Int.max_def]
      split_ifs <;> omega
    · rw [Int.min_def, Int.min_def, Int.max_def]
      split_ifs <;> omega
  · intro e he
    simp only [createScreenImageClamp, clampFooterElems, List.mem_map] at he
    obtain ⟨a, _, rfl⟩ := he
    dsimp only
    constructor
    · rw [Int.min_def, Int.max_def]
      split_ifs <;> omega
    · rw [Int.min_def, Int.min_def, Int.max_def]
      split_ifs <;> omega

/-- Claim C6 counterexample: a header element at `y = 0` (height 20, default
80-pixel header) is clamped to `y = 5`, violating the claimed `10 ≤ y`. -/
theorem claim6_counterexample :
    ((createScreenImageClamp none none [{ y := 0, height := some 20 }] []).1.all
      (fun e => decide (10 ≤ e.y))) = false := by
  decide

/-- Claim C7: with at most three screens the Workflow Composer always takes
the deterministic template path — the result is `generateTemplateBasedWorkflow`
regardless of any model response — and for the 2-screen input
`["Home Screen", "Settings Screen"]` it produces exactly 2 `screenAnalysis`
entries and the single transition `Home Screen -> Settings Screen`. -/
theorem claim7_theorem :
    (∀ (screens : List Screen) (aiResponse : Option WorkflowDataIn),
      screens.length ≤ 3 →
      generateWorkflowFromScreens screens aiResponse =
        generateTemplateBasedWorkflow screens) ∧
    (∀ aiResponse,
      generateWorkflowFromScreens
        [{ screenName := "Home Screen" }, { screenName := "Settings Screen" }]
        aiResponse =
      some (WorkflowData.mk 2
        [{ screenName := "Home Screen" }, { screenName := "Settings Screen" }]
        [TransitionOut.mk "Home Screen" "Settings Screen" "User selection"
          "Navigate from Home Screen to Settings Screen"])) := by
  constructor
  · intro screens aiResponse h
    rw [generateWorkflowFromScreens.eq_def, if_pos h]
  · intro aiResponse
    rfl

/-- Claim C7 witness: the template-path theorem applied to the concrete
2-screen input with a would-be model response present — the response is
ignored. -/
theorem claim7_witness :
    generateWorkflowFromScreens
      [{ screenName := "Home Screen" }, { screenName := "Settings Screen" }]
      (some { screenAnalysis := none, screenTransitions := some [.str "X -> Y"] }) =
    generateTemplateBasedWorkflow
      [{ screenName := "Home Screen" }, { screenName := "Settings Screen" }] :=
  claim7_theorem.1 _ _ (by decide)

/-- Claim C8: the Keyword Extractor and the Section Segmenter are
deterministic — two runs on identical input text return identical results.
(Both are embedded as pure functions of the input text alone; the source
functions read no other state and use no randomness.) -/
theorem claim8_theorem (t₁ t₂ : String) (h : t₁ = t₂) :
    extractSystemKeywords t₁ = extractSystemKeywords t₂ ∧
    createBasicStructure t₁ = createBasicStructure t₂ := by
  subst h
  exact ⟨rfl, rfl⟩

/-- Claim C8 witness: determinism applied to a concrete document text. -/
theorem claim8_witness :
    extractSystemKeywords "Generator Engine Transfer Switch startup test" =
      extractSystemKeywords "Generator Engine Transfer Switch startup test" ∧
    createBasicStructure "Generator Engine Transfer Switch startup test" =
      createBasicStructure "Generator Engine Transfer Switch startup test" :=
  claim8_theorem _ _ rfl

end HmiAgent
